import Mathlib

/-!
Verification of the hysteresis fan controller (`fan_control.py`).

The script keeps module-level configuration constants, a temperature parser
`get_temp`, and a `main` loop that reads the temperature, applies the
hysteresis decision (turn the fan on above `ON_THRESHOLD` when off, turn it
off below `OFF_THRESHOLD` when on), and sleeps.  Temperatures are modelled
as rationals, the fan as a binary state, and the loop as a function from a
finite list of raw sensor outputs to the trace of externally visible events.
-/

namespace FanControl

/-- Fan state: `fan.value` in the source is 1 for on and 0 for off. -/
inductive FanState
  | On
  | Off
deriving DecidableEq, Repr

/-- The actuation decided by one loop iteration: `fan.on()`, `fan.off()`,
or no actuator call at all. -/
inductive Action
  | turnOn
  | turnOff
  | noAction
deriving DecidableEq, Repr

/-- `ON_THRESHOLD = 65`: temperature at which the fan kicks on. -/
def ON_THRESHOLD : ℚ := 65

/-- `OFF_THRESHOLD = 55`: temperature at which the fan shuts off. -/
def OFF_THRESHOLD : ℚ := 55

/-- `SLEEP_INTERVAL = 5` seconds between temperature checks. -/
def SLEEP_INTERVAL : ℕ := 5

/-- `GPIO_PIN = 23`: pin controlling the fan. -/
def GPIO_PIN : ℕ := 23

/-- The per-iteration hysteresis decision from the body of `main`:

    if temp > ON_THRESHOLD and not fan.value: fan.on()
    elif fan.value and temp < OFF_THRESHOLD: fan.off()

given as a pure function (the spec calls it `pollOnce`) returning the new
fan state together with the actuator call performed. -/
def pollOnce (onThreshold offThreshold : ℚ) (temp : ℚ) (fan : FanState) :
    FanState × Action :=
  if temp > onThreshold ∧ fan = FanState.Off then
    (FanState.On, Action.turnOn)
  else if fan = FanState.On ∧ temp < offThreshold then
    (FanState.Off, Action.turnOff)
  else
    (fan, Action.noAction)

/-! ### The temperature parser `get_temp`

`get_temp` shells out to `vcgencmd measure_temp`, decodes the output and
evaluates `float(temp_str.split('=')[1].split(quote)[0])`, turning
`IndexError` and `ValueError` into `RuntimeError`.  We model the raw
decoded output as the input string, Python single-character `str.split` as
`pySplit`, and `float()` on strings as `pyFloat` (sign, decimal digits with
optional fractional part and exponent, surrounding ASCII whitespace
stripped; exotic inputs such as inf/nan or underscore digit separators have
no rational value and are out of scope). -/

/-- The single-quote character, used as the second split delimiter. -/
def squote : Char := Char.ofNat 39

/-- Python `s.split(sep)` for a one-character separator: split at every
occurrence of `sep`, keeping empty pieces; always returns at least one
piece. -/
def pySplit (sep : Char) : List Char → List (List Char)
  | [] => [[]]
  | c :: rest =>
    if c = sep then
      [] :: pySplit sep rest
    else
      match pySplit sep rest with
      | [] => [[c]]
      | h :: t => (c :: h) :: t

/-- Whitespace stripped by Python `float()` around a numeric literal. -/
def pyWs (c : Char) : Bool :=
  c = ' ' ∨ c = '\t' ∨ c = '\n' ∨ c = '\r' ∨ c = Char.ofNat 11 ∨ c = Char.ofNat 12

/-- Strip leading and trailing whitespace. -/
def pyStrip (cs : List Char) : List Char :=
  ((cs.dropWhile pyWs).reverse.dropWhile pyWs).reverse

/-- Numeric value of a list of decimal digits (most significant first). -/
def digitsToNat (ds : List Char) : ℕ :=
  ds.foldl (fun a c => a * 10 + (c.toNat - 48)) 0

/-- Parse an unsigned decimal mantissa: `digits`, `digits.digits`,
`digits.` or `.digits`; at least one digit overall. Returns the scaled
value `(n, k)` standing for `n / 10 ^ k`, and the unconsumed remainder. -/
def parseMantissa (cs : List Char) : Option ((ℕ × ℕ) × List Char) :=
  let intPart := cs.takeWhile Char.isDigit
  let rest := cs.dropWhile Char.isDigit
  match rest with
  | '.' :: rest2 =>
    let fracPart := rest2.takeWhile Char.isDigit
    let rest3 := rest2.dropWhile Char.isDigit
    if intPart.isEmpty ∧ fracPart.isEmpty then
      Option.none
    else
      Option.some
        ((digitsToNat intPart * Nat.pow 10 fracPart.length + digitsToNat fracPart,
          fracPart.length), rest3)
  | _ =>
    if intPart.isEmpty then
      Option.none
    else
      Option.some ((digitsToNat intPart, 0), rest)

/-- Parse an optional exponent suffix `e[+-]digits` / `E[+-]digits`;
absence is exponent `0`. An `e` not followed by at least one digit is a
parse failure. -/
def parseExponent (cs : List Char) : Option (ℤ × List Char) :=
  match cs with
  | c :: rest =>
    if c = 'e' ∨ c = 'E' then
      match rest with
      | '+' :: r2 =>
        let d := r2.takeWhile Char.isDigit
        if d.isEmpty then Option.none
        else Option.some (Int.ofNat (digitsToNat d), r2.dropWhile Char.isDigit)
      | '-' :: r2 =>
        let d := r2.takeWhile Char.isDigit
        if d.isEmpty then Option.none
        else Option.some (-Int.ofNat (digitsToNat d), r2.dropWhile Char.isDigit)
      | r2 =>
        let d := r2.takeWhile Char.isDigit
        if d.isEmpty then Option.none
        else Option.some (Int.ofNat (digitsToNat d), r2.dropWhile Char.isDigit)
    else
      Option.some (0, c :: rest)
  | [] => Option.some (0, [])

/-- Python `float()` applied to a string (as a list of characters),
yielding its exact rational value, or `none` where Python raises
`ValueError`. -/
def pyFloat (cs : List Char) : Option ℚ :=
  let stripped := pyStrip cs
  let signed : Bool × List Char :=
    match stripped with
    | '+' :: r => (false, r)
    | '-' :: r => (true, r)
    | r => (false, r)
  match parseMantissa signed.2 with
  | Option.none => Option.none
  | Option.some ((n, scale), rest) =>
    match parseExponent rest with
    | Option.none => Option.none
    | Option.some (e, rest2) =>
      if rest2.isEmpty then
        let num : ℤ := if signed.1 then -(Int.ofNat n) else Int.ofNat n
        let tenExp : ℤ := e - Int.ofNat scale
        Option.some
          (if 0 ≤ tenExp then mkRat (num * Int.ofNat (Nat.pow 10 tenExp.toNat)) 1
           else mkRat num (Nat.pow 10 (-tenExp).toNat))
      else Option.none

/-- The error message of the `RuntimeError` raised by `get_temp`. -/
def parseErrMsg : String := "Could not parse temperature output."

/-- `get_temp`, applied to the decoded sensor output:
`float(temp_str.split('=')[1].split(quote)[0])`, with `IndexError` and
`ValueError` both surfaced as one `RuntimeError`. -/
def get_temp (temp_str : String) : Except String ℚ :=
  match (pySplit '=' temp_str.data).get? 1 with
  | Option.none => Except.error parseErrMsg
  | Option.some seg =>
    match pyFloat ((pySplit squote seg).headD []) with
    | Option.none => Except.error parseErrMsg
    | Option.some v => Except.ok v

/-! ### The control loop of `main`

`main` parses the CLI flag, sets up the logger, validates the thresholds
(raising `RuntimeError` if `OFF_THRESHOLD >= ON_THRESHOLD`), creates the
fan device, and enters the infinite sense-decide-act-sleep loop.  We model
an execution prefix of the loop by the finite list of raw sensor outputs it
consumes, and record the externally visible events of each iteration in
order: the sensor read, the informational temperature log, the read of
`fan.value`, the actuator call if any, and the sleep.  An uncaught
`RuntimeError` ends the run and is returned alongside the events emitted
before it and the fan state at that moment. -/

/-- Externally visible events of the loop body. -/
inductive Event
  | sensorRead (raw : String)
  | infoLog (temp : ℚ)
  | fanValueRead (s : FanState)
  | turnOnCall
  | turnOffCall
  | sleepCall
deriving DecidableEq, Repr

/-- The actuator calls performed for one decided action. -/
def actionEvents : Action → List Event
  | Action.turnOn => [Event.turnOnCall]
  | Action.turnOff => [Event.turnOffCall]
  | Action.noAction => []

/-- The error message of the `RuntimeError` raised on misconfiguration. -/
def configErrMsg : String := "OFF_THRESHOLD must be less than ON_THRESHOLD"

/-- The `while True` body of `main`, run over a finite list of raw sensor
outputs: each iteration reads and parses the temperature (a parse failure
propagates uncaught, ending the run with the fan state untouched), logs it,
applies the hysteresis decision, performs the actuator call if any, and
sleeps.  Returns the events in order, the final fan state, and the uncaught
error if one was raised. -/
def controlLoop (onThreshold offThreshold : ℚ) :
    List String → FanState → List Event × FanState × Option String
  | [], fan => ([], fan, Option.none)
  | raw :: rest, fan =>
    match get_temp raw with
    | Except.error msg => ([Event.sensorRead raw], fan, Option.some msg)
    | Except.ok temp =>
      let step := pollOnce onThreshold offThreshold temp fan
      let tail := controlLoop onThreshold offThreshold rest step.1
      (Event.sensorRead raw :: Event.infoLog temp :: Event.fanValueRead fan ::
        (actionEvents step.2 ++ Event.sleepCall :: tail.1), tail.2)

/-- `main` after logger setup: validate `OFF_THRESHOLD >= ON_THRESHOLD`
(raising `RuntimeError` before the fan device is created and before the
loop is entered), then run the loop on the given sensor outputs starting
from the actual initial fan state. -/
def mainRun (onThreshold offThreshold : ℚ) (outputs : List String)
    (fan0 : FanState) : List Event × FanState × Option String :=
  if offThreshold ≥ onThreshold then ([], fan0, Option.some configErrMsg)
  else controlLoop onThreshold offThreshold outputs fan0

/-! ### Auxiliary lemmas -/

instance : DecidableEq (Except String ℚ) :=
  fun a b =>
    match a, b with
    | Except.ok x, Except.ok y => decidable_of_iff (x = y) (by simp)
    | Except.error x, Except.error y => decidable_of_iff (x = y) (by simp)
    | Except.ok _, Except.error _ => Decidable.isFalse (by simp)
    | Except.error _, Except.ok _ => Decidable.isFalse (by simp)

/-- Splitting always produces at least one piece. -/
theorem pySplit_ne_nil (sep : Char) (cs : List Char) : pySplit sep cs ≠ [] := by
  cases cs with
  | nil => simp [pySplit]
  | cons c rest =>
    simp only [pySplit]
    split_ifs
    · simp
    · cases h : pySplit sep rest <;> simp

/-- Splitting produces a single piece exactly when the separator is absent. -/
theorem pySplit_length_eq_one_iff (sep : Char) (cs : List Char) :
    (pySplit sep cs).length = 1 ↔ sep ∉ cs := by
  induction cs with
  | nil => simp [pySplit]
  | cons c rest ih =>
    by_cases hc : c = sep
    · subst hc
      have hlen : 0 < (pySplit c rest).length := List.length_pos.mpr (pySplit_ne_nil c rest)
      have hstep : pySplit c (c :: rest) = [] :: pySplit c rest := by
        simp [pySplit]
      rw [hstep]
      simp only [List.length_cons]
      constructor
      · intro h
        exfalso
        omega
      · intro h
        exact absurd (List.mem_cons_self c rest) h
    · simp only [pySplit]
      rw [if_neg hc]
      cases h : pySplit sep rest with
      | nil => exact absurd h (pySplit_ne_nil sep rest)
      | cons hd tl =>
        rw [h] at ih
        simp only [List.length_cons] at ih ⊢
        rw [List.mem_cons]
        constructor
        · intro hl hor
          cases hor with
          | inl hh => exact hc hh.symm
          | inr hh => exact ih.mp hl hh
        · intro hmem
          exact ih.mpr (fun hh => hmem (Or.inr hh))

/-- The numeric text `get_temp` extracts: the piece after the first `=`,
cut at the first single quote. -/
def extractedSegment (temp_str : String) : List Char :=
  (pySplit squote ((pySplit '=' temp_str.data)[1]?.getD [])).headD []

/-- When the split on `=` has no second piece, `get_temp` fails and the
`=` character is absent from the input. -/
theorem get_temp_no_eq_piece (s : String)
    (e : (pySplit '=' s.data)[1]? = Option.none) :
    get_temp s = Except.error parseErrMsg ∧ '=' ∉ s.data := by
  have hlen : (pySplit '=' s.data).length ≤ 1 := List.getElem?_eq_none_iff.mp e
  have hlen1 : (pySplit '=' s.data).length = 1 :=
    Nat.le_antisymm hlen (List.length_pos.mpr (pySplit_ne_nil '=' s.data))
  exact ⟨by simp [get_temp, e], (pySplit_length_eq_one_iff '=' s.data).mp hlen1⟩

/-- When the split on `=` has a second piece, the `=` character occurs in
the input and `get_temp` is the float conversion of that piece cut at the
first single quote. -/
theorem get_temp_with_eq_piece (s : String) (seg : List Char)
    (e : (pySplit '=' s.data)[1]? = Option.some seg) :
    '=' ∈ s.data ∧ extractedSegment s = (pySplit squote seg).headD [] ∧
    get_temp s =
      (match pyFloat ((pySplit squote seg).headD []) with
        | Option.none => Except.error parseErrMsg
        | Option.some v => Except.ok v) := by
  have hlt : 1 < (pySplit '=' s.data).length := (List.getElem?_eq_some.mp e).1
  refine ⟨?_, by simp [extractedSegment, e], by simp [get_temp, e]⟩
  by_contra hn
  have h1 := (pySplit_length_eq_one_iff '=' s.data).mpr hn
  omega

/-! ### The claims -/

/-- C1: for every temperature strictly above the on-threshold, with the
fan off, one iteration turns the fan on and performs exactly the `turnOn`
actuator call. -/
theorem pollOnce_turn_on (onT offT t : ℚ) (h : t > onT) :
    pollOnce onT offT t FanState.Off = (FanState.On, Action.turnOn) := by
  simp [pollOnce, h]

/-- C1 witness: at thresholds 65/55, temperature 70 with the fan off
turns it on. -/
theorem pollOnce_turn_on_witness :
    (70 : ℚ) > 65 ∧ pollOnce 65 55 70 FanState.Off = (FanState.On, Action.turnOn) :=
  ⟨by decide, pollOnce_turn_on 65 55 70 (by decide)⟩

/-- C2: for every temperature strictly below the off-threshold, with the
fan on, one iteration turns the fan off and performs exactly the `turnOff`
actuator call. -/
theorem pollOnce_turn_off (onT offT t : ℚ) (h : t < offT) :
    pollOnce onT offT t FanState.On = (FanState.Off, Action.turnOff) := by
  simp [pollOnce, h]

/-- C2 witness: at thresholds 65/55, temperature 50 with the fan on turns
it off. -/
theorem pollOnce_turn_off_witness :
    (50 : ℚ) < 55 ∧ pollOnce 65 55 50 FanState.On = (FanState.Off, Action.turnOff) :=
  ⟨by decide, pollOnce_turn_off 65 55 50 (by decide)⟩

/-- C3: in the dead band strictly between the thresholds, one iteration
leaves either fan state unchanged and performs no actuator call. -/
theorem pollOnce_dead_band (onT offT t : ℚ) (h1 : offT < t) (h2 : t < onT)
    (s : FanState) :
    pollOnce onT offT t s = (s, Action.noAction) := by
  cases s <;> simp [pollOnce, h1.asymm, h2.asymm]

/-- C3 witness: at thresholds 65/55, temperature 60 with the fan on stays
on with no action. -/
theorem pollOnce_dead_band_witness :
    (55 : ℚ) < 60 ∧ (60 : ℚ) < 65 ∧
    pollOnce 65 55 60 FanState.On = (FanState.On, Action.noAction) :=
  ⟨by decide, by decide, pollOnce_dead_band 65 55 60 (by decide) (by decide) FanState.On⟩

/-- C4: a reading exactly equal to a threshold never triggers a
transition: at the on-threshold with the fan off, and at the off-threshold
with the fan on, the state is unchanged and no actuator call happens
(both comparisons are strict). -/
theorem pollOnce_boundary (onT offT : ℚ) :
    pollOnce onT offT onT FanState.Off = (FanState.Off, Action.noAction) ∧
    pollOnce onT offT offT FanState.On = (FanState.On, Action.noAction) := by
  constructor <;> simp [pollOnce]

/-- C5: with `offThreshold >= onThreshold` the run fails with the
configuration `RuntimeError` immediately: no sensor read, no fan-state
read, no actuator call (the event list is empty), the fan state is
untouched, and the loop is never entered, whatever sensor outputs were
available. -/
theorem mainRun_config_error (onT offT : ℚ) (outputs : List String)
    (fan0 : FanState) (h : offT ≥ onT) :
    mainRun onT offT outputs fan0 = ([], fan0, Option.some configErrMsg) := by
  simp [mainRun, h]

/-- C5 witness: off-threshold 70 against on-threshold 65 aborts at once
even with a parseable sensor output available. -/
theorem mainRun_config_error_witness :
    (70 : ℚ) ≥ 65 ∧
    mainRun 65 70 ["temp=45.2"] FanState.Off =
      ([], FanState.Off, Option.some configErrMsg) :=
  ⟨by decide, mainRun_config_error 65 70 ["temp=45.2"] FanState.Off (by decide)⟩

/-- C6 counterexample: the claim says `get_temp` raises exactly when the
expected delimiters (`=` and the single quote) are absent or the numeric
conversion fails; but on `"temp=45.2"` the quote delimiter is absent and
`get_temp` still succeeds with 45.2, because splitting at a missing quote
keeps the whole remainder. -/
theorem get_temp_quote_absent_counterexample :
    squote ∉ "temp=45.2".data ∧ get_temp "temp=45.2" = Except.ok (mkRat 226 5) := by
  constructor
  · decide
  · decide

/-- C6 amended: `get_temp` returns the numeric value of the text between
the first `=` and the following single quote (running to the end of the
string when the quote is absent) — e.g. `"temp=45.2'C\n"` yields 45.2 —
and raises exactly when the `=` delimiter is absent (as on `"garbage"`)
or that text fails the numeric conversion; absence of the quote alone
does not raise. -/
theorem get_temp_characterization (s : String) :
    get_temp ("temp=45.2" ++ String.singleton squote ++ "C\n") = Except.ok (mkRat 226 5) ∧
    get_temp "garbage" = Except.error parseErrMsg ∧
    (get_temp s = Except.error parseErrMsg ↔
      ('=' ∉ s.data ∨ pyFloat (extractedSegment s) = Option.none)) ∧
    (∀ v, get_temp s = Except.ok v ↔
      ('=' ∈ s.data ∧ pyFloat (extractedSegment s) = Option.some v)) := by
  refine ⟨by decide, rfl, ?_, ?_⟩
  · cases e : (pySplit '=' s.data)[1]? with
    | none =>
      obtain ⟨herr, hmem⟩ := get_temp_no_eq_piece s e
      simp [herr, hmem]
    | some seg =>
      obtain ⟨hmem, hext, heq⟩ := get_temp_with_eq_piece s seg e
      rw [hext, heq]
      cases pf : pyFloat ((pySplit squote seg).headD []) <;> simp [hmem, pf]
  · intro v
    cases e : (pySplit '=' s.data)[1]? with
    | none =>
      obtain ⟨herr, hmem⟩ := get_temp_no_eq_piece s e
      simp [herr, hmem]
    | some seg =>
      obtain ⟨hmem, hext, heq⟩ := get_temp_with_eq_piece s seg e
      rw [hext, heq]
      cases pf : pyFloat ((pySplit squote seg).headD []) <;> simp [hmem, pf]

/-- C7: one iteration is idempotent at steady temperature under the
validated configuration `offThreshold < onThreshold`: rerunning the
decision on the state it just produced changes nothing and performs no
actuator call. -/
theorem pollOnce_idempotent (onT offT t : ℚ) (s : FanState) (hcfg : offT < onT) :
    pollOnce onT offT t (pollOnce onT offT t s).1 =
      ((pollOnce onT offT t s).1, Action.noAction) := by
  cases s <;> unfold pollOnce <;> split_ifs <;> simp_all <;> linarith

/-- C7 witness: at thresholds 65/55 and temperature 70, after the fan was
turned on a second identical poll does nothing. -/
theorem pollOnce_idempotent_witness :
    (55 : ℚ) < 65 ∧
    pollOnce 65 55 70 (pollOnce 65 55 70 FanState.Off).1 =
      ((pollOnce 65 55 70 FanState.Off).1, Action.noAction) :=
  ⟨by decide, pollOnce_idempotent 65 55 70 FanState.Off (by decide)⟩

/-- C8: the decision logic is total over all rational temperatures
(negative and extreme included) and both fan states: it always returns a
result, which is moreover one of the three possible outcomes; being a
total computable function it raises nothing. -/
theorem pollOnce_exhaustive (onT offT t : ℚ) (s : FanState) :
    pollOnce onT offT t s = (FanState.On, Action.turnOn) ∨
    pollOnce onT offT t s = (FanState.Off, Action.turnOff) ∨
    pollOnce onT offT t s = (s, Action.noAction) := by
  unfold pollOnce
  split_ifs <;> simp

/-- C9: state-action consistency: the returned action is `turnOn` exactly
for an Off-to-On transition, `turnOff` exactly for an On-to-Off
transition, and no action exactly when the state is unchanged; `Action`
being an enumeration, exactly one of the three holds per call. -/
theorem pollOnce_state_action (onT offT t : ℚ) (s : FanState) :
    ((pollOnce onT offT t s).2 = Action.turnOn ↔
      s = FanState.Off ∧ (pollOnce onT offT t s).1 = FanState.On) ∧
    ((pollOnce onT offT t s).2 = Action.turnOff ↔
      s = FanState.On ∧ (pollOnce onT offT t s).1 = FanState.Off) ∧
    ((pollOnce onT offT t s).2 = Action.noAction ↔ (pollOnce onT offT t s).1 = s) := by
  cases s <;> unfold pollOnce <;> split_ifs <;> simp_all

/-- C10: a failed poll iteration is atomic: when parsing the sensor output
raises, the iteration stops at the sensor read — no temperature log, no
fan-state read, and in particular no `turnOn` or `turnOff` actuator call —
and the fan state is left unchanged. -/
theorem controlLoop_parse_error_atomic (onT offT : ℚ) (raw : String)
    (rest : List String) (fan : FanState) (msg : String)
    (h : get_temp raw = Except.error msg) :
    controlLoop onT offT (raw :: rest) fan =
      ([Event.sensorRead raw], fan, Option.some msg) := by
  simp [controlLoop, h]

/-- C10 witness: the unparseable output `"garbage"` stops the loop right
after the sensor read, with the fan left on and no actuator call. -/
theorem controlLoop_parse_error_atomic_witness :
    get_temp "garbage" = Except.error parseErrMsg ∧
    controlLoop 65 55 ["garbage"] FanState.On =
      ([Event.sensorRead "garbage"], FanState.On, Option.some parseErrMsg) :=
  ⟨rfl, controlLoop_parse_error_atomic 65 55 "garbage" [] FanState.On parseErrMsg rfl⟩

end FanControl
